import Mathlib

/-!
Verification of the web2droid packaging pipeline (src/web2droid.py and
src/web2droid_win.py) against its natural-language specification.

The development is a shallow embedding of the pipeline: pure string
manipulations of the source (package-name derivation, manifest and shell
generation, path construction) become Lean functions on `String`; the
stateful build orchestration (`AppBuilder.run` and its stages) becomes
explicit state passing over a filesystem/trace/log state `St`, with
fallible steps returning `Except`.  External tool invocations (aapt2, javac,
d8, keytool, apksigner, bundletool, jarsigner) are recorded in an invocation
trace; an oracle `env : Nat → Bool` decides whether the n-th invocation of a
build succeeds (`subprocess.run(..., check=True)` raising
`CalledProcessError` on failure).  File contents are modelled symbolically
as strings built from the inputs, which is enough to track byte-identity of
intermediate artifacts.  String scanning helpers are written by structural
recursion on `List Char` so that all definitions evaluate by kernel
reduction.
-/

namespace Web2droid

/-- `listStarts pat l` is true when `pat` is an initial segment of `l`.
Used to model path-prefix tests (`shutil.rmtree` of a directory tree). -/
def listStarts : List Char → List Char → Bool
  | [], _ => true
  | _ :: _, [] => false
  | a :: as, b :: bs => a == b && listStarts as bs

/-- Path `p` lies inside directory `d` (i.e. starts with `d ++ "/"`). -/
def underDir (d p : String) : Bool :=
  listStarts (d ++ "/").data p.data

/-- Model of `os.path.join` for a relative second component. -/
def pjoin (a b : String) : String := a ++ "/" ++ b

/-- Model of Python `str.lower()` (ASCII fragment, one character). -/
def pyLower (s : String) : String := ⟨s.data.map Char.toLower⟩

/-- Model of Python `str.replace(' ', '')`: drop every space character. -/
def stripSpaces (s : String) : String := ⟨s.data.filter (fun c => c != ' ')⟩

/-- The suffix derivation used by `AppBuilder.__init__`:
`self.app_name.lower().replace(' ', '')`. -/
def derive (s : String) : String := stripSpaces (pyLower s)

/-- Model of Python `str.replace(' ', '_')` used for final artifact names. -/
def underscored (s : String) : String :=
  ⟨s.data.map (fun c => if c = ' ' then '_' else c)⟩

/-- Model of `os.path.splitext(p)[1]`: the extension of the basename of `p`,
including the leading dot; empty when the basename has no dot after its
leading dots. -/
def splitextExt (p : String) : String :=
  let baseRev := p.data.reverse.takeWhile (fun c => c != '/')
  let trimmed := baseRev.reverse.dropWhile (fun c => c == '.')
  if trimmed.contains '.' then
    ⟨'.' :: (baseRev.takeWhile (fun c => c != '.')).reverse⟩
  else ""

/-- Split a package name at the dots, as `self.package_name.split(".")`. -/
def splitDotsAux : List Char → List Char → List (List Char)
  | [], acc => [acc.reverse]
  | c :: rest, acc =>
    if c = '.' then acc.reverse :: splitDotsAux rest []
    else splitDotsAux rest (c :: acc)

/-- `String.splitOn "."` as used on the package name. -/
def splitDots (s : String) : List String :=
  (splitDotsAux s.data []).map (fun l => ⟨l⟩)

/-- The build request plus derived per-build data held by `AppBuilder`.
`buildDir` stands for `"build_temp_" + str(int(time.time()))`. -/
structure Builder where
  htmlPath : String
  appName : String
  version : String
  iconPath : Option String
  buildDir : String
  deriving Repr, DecidableEq

/-- `AppBuilder.__init__`, given the timestamp token for the workspace. -/
def mkBuilder (htmlPath appName version : String) (iconPath : Option String)
    (t : Nat) : Builder :=
  ⟨htmlPath, appName, version, iconPath, "build_temp_" ++ toString t⟩

/-- `self.package_name = f"com.example.{self.app_name.lower().replace(' ', '')}"` -/
def Builder.packageName (b : Builder) : String :=
  "com.example." ++ derive b.appName

/-- The persistent SDK location (`~/.android_web_builder_sdk`). -/
def SDK_ROOT : String := "HOME/.android_web_builder_sdk"

/-- `self.keystore_path = os.path.join(SDK_ROOT, "debug.keystore")` -/
def keystorePath : String := pjoin SDK_ROOT "debug.keystore"

/-- `self.src_dir = os.path.join(build_dir, "java", "com", "example", name)` -/
def Builder.srcDir (b : Builder) : String :=
  pjoin (pjoin (pjoin (pjoin b.buildDir "java") "com") "example") (derive b.appName)

/-- `self.res_dir = os.path.join(build_dir, "res")` -/
def Builder.resDir (b : Builder) : String := pjoin b.buildDir "res"

/-- `self.assets_dir = os.path.join(build_dir, "assets")` -/
def Builder.assetsDir (b : Builder) : String := pjoin b.buildDir "assets"

/-- Final single-file artifact path: `f"{app_name.replace(' ', '_')}.apk"`. -/
def Builder.apkPath (b : Builder) : String := underscored b.appName ++ ".apk"

/-- Final bundle artifact path: `f"{app_name.replace(' ', '_')}.aab"`. -/
def Builder.aabPath (b : Builder) : String := underscored b.appName ++ ".aab"

/-- Path of the generated `R.java`:
`os.path.join(build_dir, "gen", *package_name.split("."), "R.java")`. -/
def Builder.rJavaPath (b : Builder) : String :=
  pjoin ((splitDots b.packageName).foldl pjoin (pjoin b.buildDir "gen")) "R.java"

/-- The default icon sentinel written by `copy_assets`. -/
def defaultIcon : String := "@android:drawable/sym_def_app_icon"

/-- The manifest text produced by `AppBuilder.generate_manifest` (Linux
variant: minSdk 21 / targetSdk 33), as a function of the interpolated
fields.  The grouping of the concatenation mirrors the f-string layout. -/
def manifestContent (pkg ver label icon : String) : String :=
  ("<?xml version=\"1.0\" encoding=\"utf-8\"?>\n<manifest xmlns:android=\"http://schemas.android.com/apk/res/android\"\n    package=\"" ++
    pkg ++
    "\"\n    android:versionCode=\"1\"\n    android:versionName=\"" ++
    ver ++
    "\">\n    <uses-sdk android:minSdkVersion=\"21\" android:targetSdkVersion=\"33\" />\n    <uses-permission android:name=\"android.permission.INTERNET\" />\n    <application \n        android:label=\"") ++
  label ++
  ("\" \n        android:icon=\"" ++
    icon ++
    "\"\n        android:theme=\"@android:style/Theme.NoTitleBar\"\n        android:usesCleartextTraffic=\"true\">\n        <activity android:name=\".MainActivity\" android:exported=\"true\">\n            <intent-filter>\n                <action android:name=\"android.intent.action.MAIN\" />\n                <category android:name=\"android.intent.category.LAUNCHER\" />\n            </intent-filter>\n        </activity>\n    </application>\n</manifest>")

/-- The `MainActivity.java` text produced by `AppBuilder.generate_java`,
as a function of the interpolated package name. -/
def javaContent (pkg : String) : String :=
  "package " ++ pkg ++
  ";\nimport android.app.Activity;\nimport android.os.Bundle;\nimport android.webkit.WebSettings;\nimport android.webkit.WebView;\nimport android.webkit.WebViewClient;\n\npublic class MainActivity extends Activity \x7b\n    @Override\n    protected void onCreate(Bundle savedInstanceState) \x7b\n        super.onCreate(savedInstanceState);\n        WebView webView = new WebView(this);\n        WebSettings webSettings = webView.getSettings();\n        webSettings.setJavaScriptEnabled(true);\n        webSettings.setDomStorageEnabled(true);\n        webView.setWebViewClient(new WebViewClient());\n        webView.loadUrl(\"file:///android_asset/index.html\");\n        setContentView(webView);\n    \x7d\n\x7d"

/-- One external toolchain invocation, recording the inputs it was given
(contents as read at invocation time) and where it writes. -/
inductive Inv where
  /-- `aapt2 compile --dir res -o resources.zip`: the resource tree listing
  and the archive content it produces. -/
  | compileRes (resFiles : List (String × String)) (out : String)
  /-- `aapt2 link [--proto-format] -I android.jar --manifest m -o out [-A assets] archive`:
  records the format, the manifest content, the archive content fed in, the
  asset listing (empty when `-A` is absent) and the output path. -/
  | linkRes (proto : Bool) (manifest : String) (archive : String)
      (assets : List (String × String)) (out : String)
  /-- `javac ... MainActivity.java R.java` -/
  | javac (mainSrc : String) (rSrc : String)
  /-- `d8 --output build_dir --lib android.jar <classes>` -/
  | d8 (classFiles : List String)
  /-- `keytool -genkey ... -keystore ks` -/
  | keytool (ks : String)
  /-- `apksigner sign --ks ks --out outPath unaligned.apk` with the content
  of the input container. -/
  | apksigner (ks : String) (inContent : String) (outPath : String)
  /-- `java -jar bundletool.jar build-bundle --modules=... --output=outPath`
  with the module zip content. -/
  | bundletool (moduleContent : String) (outPath : String)
  /-- `jarsigner -keystore ks ... final.aab` with the bundle content signed
  in place. -/
  | jarsigner (ks : String) (content : String)
  deriving Repr, DecidableEq

/-- The errors a build stage can raise: `subprocess.CalledProcessError`
from a failed tool invocation, or the `Exception(f"File {p} not found!")`
raised by `copy_assets` (also used for reads of files that are absent,
where Python would raise an I/O error). -/
inductive Err where
  | calledProcess (i : Inv)
  | notFound (p : String)
  deriving Repr, DecidableEq

/-- Mutable world state threaded through a build: files (newest entry
first, shadowing older ones), directories, the trace of external
invocations, and the console log. -/
structure St where
  files : List (String × String)
  dirs : List String
  trace : List Inv
  log : List String
  deriving Repr, DecidableEq

/-- Read a file (newest write wins). -/
def readFile (st : St) (p : String) : Option String := st.files.lookup p

/-- Write (or overwrite) a file. -/
def writeFile (p c : String) (st : St) : St :=
  { st with files := (p, c) :: st.files }

/-- `os.remove p`. -/
def removeFile (p : String) (st : St) : St :=
  { st with files := st.files.filter (fun q => !(q.1 == p)) }

/-- `os.makedirs d` (parents implicit; only the leaf is recorded). -/
def mkdirs (d : String) (st : St) : St := { st with dirs := d :: st.dirs }

/-- `os.path.exists p` over the modelled state. -/
def pathExists (st : St) (p : String) : Bool :=
  (readFile st p).isSome || st.dirs.contains p

/-- `print(m)`. -/
def pushLog (m : String) (st : St) : St := { st with log := st.log ++ [m] }

/-- `shutil.rmtree d`: drop the directory, everything below it, and every
file below it. -/
def rmtreeSt (d : String) (st : St) : St :=
  { st with
    files := st.files.filter (fun q => !(underDir d q.1)),
    dirs := st.dirs.filter (fun p => !(p == d || underDir d p)) }

/-- All files inside directory `d` (as seen by a tool scanning it). -/
def filesUnder (st : St) (d : String) : List (String × String) :=
  st.files.filter (fun q => underDir d q.1)

/-- Flat rendering of a directory listing, used to form the symbolic
content of archives produced from it. -/
def serializeFiles : List (String × String) → String
  | [] => ""
  | (p, c) :: rest => p ++ "=" ++ c ++ ";" ++ serializeFiles rest

/-- Run one external invocation: the oracle `env`, consulted at the current
position in the trace, decides whether it succeeds.  A failed invocation is
still recorded (the tool ran and reported failure, which `check=True` turns
into `CalledProcessError`). -/
def invoke (env : Nat → Bool) (i : Inv) (st : St) : Except (Err × St) St :=
  if env st.trace.length then .ok { st with trace := st.trace ++ [i] }
  else .error (.calledProcess i, { st with trace := st.trace ++ [i] })

/-- Read a file that the flow requires to exist, failing like Python would
on a missing file. -/
def readF (p : String) (st : St) : Except (Err × St) (St × String) :=
  match readFile st p with
  | none => .error (.notFound p, st)
  | some c => .ok (st, c)

/-- `AppBuilder.prepare_directories`. -/
def prepare_directories (b : Builder) (st : St) : St :=
  let st := if pathExists st b.buildDir then rmtreeSt b.buildDir st else st
  let st := mkdirs b.buildDir st
  let st := mkdirs b.srcDir st
  let st := mkdirs (pjoin b.resDir "layout") st
  let st := mkdirs (pjoin b.resDir "values") st
  mkdirs b.assetsDir st

/-- `AppBuilder.copy_assets`: checks the HTML input, copies it into the
asset tree, and resolves the icon reference (returned, as it is stored on
`self` for `generate_manifest`). -/
def copy_assets (b : Builder) (st : St) : Except (Err × St) (St × String) :=
  match readFile st b.htmlPath with
  | none => .error (.notFound b.htmlPath, st)
  | some hc =>
    let st := writeFile (pjoin b.assetsDir "index.html") hc st
    match b.iconPath with
    | none => .ok (st, defaultIcon)
    | some ip =>
      match readFile st ip with
      | none => .ok (st, defaultIcon)
      | some ic =>
        let mip := pjoin b.resDir "mipmap-hdpi"
        let st := mkdirs mip st
        let ext := pyLower (splitextExt ip)
        let st := writeFile (pjoin mip ("ic_launcher" ++ ext)) ic st
        .ok (st, "@mipmap/ic_launcher")

/-- `AppBuilder.generate_manifest` (icon reference resolved by
`copy_assets`). -/
def generate_manifest (b : Builder) (iconRes : String) (st : St) : St :=
  writeFile (pjoin b.buildDir "AndroidManifest.xml")
    (manifestContent b.packageName b.version b.appName iconRes) st

/-- `AppBuilder.generate_java`. -/
def generate_java (b : Builder) (st : St) : St :=
  writeFile (pjoin b.srcDir "MainActivity.java") (javaContent b.packageName) st

/-- `AppBuilder.ensure_keystore`: create-if-absent for the persistent debug
keystore. -/
def ensure_keystore (env : Nat → Bool) (st : St) : Except (Err × St) St := do
  if (readFile st keystorePath).isSome then
    return st
  else
    let st := pushLog "--> Generating debug keystore..." st
    let st ← invoke env (.keytool keystorePath) st
    return writeFile keystorePath "keystore" st

/-- `AppBuilder.compile_common`: resource compile, binary link for
`R.java`, `javac`, `d8`.  Returns the path of the compiled resources zip. -/
def compile_common (b : Builder) (env : Nat → Bool) (st : St) :
    Except (Err × St) (St × String) := do
  let st := pushLog "--> Compiling resources (aapt2)..." st
  let crz := pjoin b.buildDir "resources.zip"
  let resListing := filesUnder st b.resDir
  let arch := "aapt2compile(" ++ serializeFiles resListing ++ ")"
  let st ← invoke env (.compileRes resListing arch) st
  let st := writeFile crz arch st
  let st := pushLog "--> Generating R.java..." st
  let (st, manifest) ← readF (pjoin b.buildDir "AndroidManifest.xml") st
  let (st, archC) ← readF crz st
  let tempLink := pjoin b.buildDir "temp_link.apk"
  let st ← invoke env (.linkRes false manifest archC [] tempLink) st
  let st := writeFile tempLink ("link(bin," ++ manifest ++ "," ++ archC ++ ",)") st
  let st := writeFile b.rJavaPath ("rjava(" ++ b.packageName ++ ")") st
  let st := pushLog "--> Compiling Java (javac)..." st
  let (st, mainSrc) ← readF (pjoin b.srcDir "MainActivity.java") st
  let (st, rSrc) ← readF b.rJavaPath st
  let st ← invoke env (.javac mainSrc rSrc) st
  let mainClass := pjoin b.srcDir "MainActivity.class"
  let rClass := ((splitDots b.packageName).foldl pjoin (pjoin b.buildDir "gen")) ++ "/R.class"
  let st := writeFile mainClass ("class(" ++ mainSrc ++ ")") st
  let st := writeFile rClass ("class(" ++ rSrc ++ ")") st
  let st := pushLog "--> Converting to Dex (d8)..." st
  let layoutClass := ((splitDots b.packageName).foldl pjoin (pjoin b.buildDir "gen")) ++ "/R$layout.class"
  let classFiles := [mainClass, rClass] ++
    (if (readFile st layoutClass).isSome then [layoutClass] else [])
  let st ← invoke env (.d8 classFiles) st
  let (st, mc) ← readF mainClass st
  let (st, rc) ← readF rClass st
  let st := writeFile (pjoin b.buildDir "classes.dex") ("dex(" ++ mc ++ "," ++ rc ++ ")") st
  return (st, crz)

/-- `AppBuilder.build_apk`: binary link with assets, raw zip append of
`classes.dex`, then `apksigner` producing the final APK. -/
def build_apk (b : Builder) (env : Nat → Bool) (crz : String) (st : St) :
    Except (Err × St) St := do
  let st := pushLog "\n[ Building APK ]" st
  let unaligned := pjoin b.buildDir "unaligned.apk"
  let (st, manifest) ← readF (pjoin b.buildDir "AndroidManifest.xml") st
  let (st, archC) ← readF crz st
  let assetsListing := filesUnder st b.assetsDir
  let st ← invoke env (.linkRes false manifest archC assetsListing unaligned) st
  let st := writeFile unaligned
    ("link(bin," ++ manifest ++ "," ++ archC ++ "," ++ serializeFiles assetsListing ++ ")") st
  let (st, dex) ← readF (pjoin b.buildDir "classes.dex") st
  let (st, cur) ← readF unaligned st
  let st := writeFile unaligned (cur ++ "+dex(" ++ dex ++ ")") st
  let (st, inC) ← readF unaligned st
  let st ← invoke env (.apksigner keystorePath inC b.apkPath) st
  let st := writeFile b.apkPath ("signed(" ++ inC ++ ")") st
  return pushLog ("[SUCCESS] APK Created: " ++ b.apkPath) st

/-- `AppBuilder.build_aab`: proto link, explode into the module layout,
zip the module, delete any stale bundle, `bundletool build-bundle`, then
`jarsigner` in place. -/
def build_aab (b : Builder) (env : Nat → Bool) (crz : String) (st : St) :
    Except (Err × St) St := do
  let st := pushLog "\n[ Building Android App Bundle (AAB) ]" st
  let protoApk := pjoin b.buildDir "proto.apk"
  let (st, manifest) ← readF (pjoin b.buildDir "AndroidManifest.xml") st
  let (st, archC) ← readF crz st
  let assetsListing := filesUnder st b.assetsDir
  let st ← invoke env (.linkRes true manifest archC assetsListing protoApk) st
  let st := writeFile protoApk
    ("link(proto," ++ manifest ++ "," ++ archC ++ "," ++ serializeFiles assetsListing ++ ")") st
  let base := pjoin b.buildDir "base_module"
  let st := mkdirs (pjoin base "manifest") st
  let st := mkdirs (pjoin base "dex") st
  let (st, protoC) ← readF protoApk st
  let st := writeFile (pjoin base "AndroidManifest.xml")
    ("entry(AndroidManifest.xml," ++ protoC ++ ")") st
  let st := writeFile (pjoin base "resources.pb")
    ("entry(resources.pb," ++ protoC ++ ")") st
  let (st, mc) ← readF (pjoin base "AndroidManifest.xml") st
  let st := removeFile (pjoin base "AndroidManifest.xml") st
  let st := writeFile (pjoin (pjoin base "manifest") "AndroidManifest.xml") mc st
  let (st, dex) ← readF (pjoin b.buildDir "classes.dex") st
  let st := writeFile (pjoin (pjoin base "dex") "classes.dex") dex st
  let moduleZip := pjoin b.buildDir "base.zip"
  let st := writeFile moduleZip ("zip(" ++ serializeFiles (filesUnder st base) ++ ")") st
  let st := if (readFile st b.aabPath).isSome then removeFile b.aabPath st else st
  let (st, mz) ← readF moduleZip st
  let st ← invoke env (.bundletool mz b.aabPath) st
  let st := writeFile b.aabPath ("bundle(" ++ mz ++ ")") st
  let (st, bc) ← readF b.aabPath st
  let st ← invoke env (.jarsigner keystorePath bc) st
  let st := writeFile b.aabPath ("jarsigned(" ++ bc ++ ")") st
  return pushLog ("[SUCCESS] AAB Created: " ++ b.aabPath) st

/-- The stages of `AppBuilder.run` up to and including the common compile
stage (everything before the branch fork). -/
def runPrelude (b : Builder) (env : Nat → Bool) (st : St) :
    Except (Err × St) (St × String) := do
  let st := pushLog ("\n[*] Starting build: " ++ b.appName ++ " v" ++ b.version) st
  let st := prepare_directories b st
  let (st, iconRes) ← copy_assets b st
  let st := generate_manifest b iconRes st
  let st := generate_java b st
  let st ← ensure_keystore env st
  compile_common b env st

/-- The body of `AppBuilder.run`'s `try` block. -/
def runE (b : Builder) (env : Nat → Bool) (doApk doAab : Bool) (st : St) :
    Except (Err × St) St := do
  let (st, crz) ← runPrelude b env st
  let st ← if doApk then build_apk b env crz st else pure st
  let st ← if doAab then build_aab b env crz st else pure st
  return rmtreeSt b.buildDir st

/-- Console message printed by `AppBuilder.run`'s exception handlers. -/
def errMsg : Err → String
  | .calledProcess _ => "\n[ERROR] Command failed"
  | .notFound p => "\n[ERROR] File " ++ p ++ " not found!"

/-- `AppBuilder.run`: the `try` body with both exception handlers, which
report the failure to the console and return normally. -/
def run (b : Builder) (env : Nat → Bool) (doApk doAab : Bool) (st : St) : St :=
  match runE b env doApk doAab st with
  | .ok st' => st'
  | .error (e, st') => pushLog (errMsg e) st'

/-- Availability of the environment capabilities that `SDKManager` needs
(can each be either already present or successfully installed). -/
structure Caps where
  javacPresent : Bool
  javaInstallOk : Bool
  sdkPresent : Bool
  sdkInstallOk : Bool
  bundletoolPresent : Bool
  bundletoolDownloadOk : Bool
  deriving Repr, DecidableEq

/-- `SDKManager.ensure_java`: succeeds when `javac`/`jarsigner` are on the
path or the `default-jdk` install succeeds. -/
def ensure_java (c : Caps) : Bool := c.javacPresent || c.javaInstallOk

/-- The SDK check of `SDKManager.check_and_install`. -/
def sdkAvailable (c : Caps) : Bool := c.sdkPresent || c.sdkInstallOk

/-- `SDKManager.check_and_install`: `none` models `sys.exit(1)`.  A failed
bundletool download only prints an error and does not exit. -/
def check_and_install (c : Caps) : Option Unit :=
  if ensure_java c then (if sdkAvailable c then some () else none) else none

/-- Every mandatory environment capability is available. -/
def envAvailable (c : Caps) : Bool := ensure_java c && sdkAvailable c

/-- The `main` function: environment setup (which may terminate the process
with exit code 1), then one build whose failures are all caught inside
`AppBuilder.run`.  Returns the process exit code and the final state. -/
def mainModel (c : Caps) (b : Builder) (env : Nat → Bool) (doApk doAab : Bool)
    (st : St) : Nat × St :=
  match check_and_install c with
  | none => (1, st)
  | some _ => (0, run b env doApk doAab st)

/-- Did the `try` body succeed (no exception reached the handlers)? -/
def isOkE {ε α : Type} : Except ε α → Bool
  | .ok _ => true
  | .error _ => false

/-- The state embedded in a stage result: the final state on success (seen
through `g`), the state at the moment of the exception on failure. -/
def embSt {β : Type} (g : β → St) : Except (Err × St) β → St
  | .ok v => g v
  | .error p => p.2

/-- Is this invocation one of the Bundle Assembler's (proto-format link,
bundle-build, or bundle-sign)? -/
def isBundleInv : Inv → Bool
  | .linkRes true _ _ _ _ => true
  | .bundletool _ _ => true
  | .jarsigner _ _ => true
  | _ => false

/-- The archive content fed to a resource-link invocation, if any. -/
def linkArchive : Inv → Option String
  | .linkRes _ _ a _ _ => some a
  | _ => none

/-- The archive content produced by a resource-compile invocation, if any. -/
def compileOut : Inv → Option String
  | .compileRes _ o => some o
  | _ => none

/-! ### Concrete fixtures used by witnesses and counterexamples -/

/-- A benign oracle: every external invocation succeeds. -/
def envAll : Nat → Bool := fun _ => true

/-- An oracle failing the build's second invocation (the `aapt2 compile`
of a fresh-keystore build). -/
def envFailSnd : Nat → Bool := fun n => n != 1

/-- An oracle failing the build's seventh invocation (the `apksigner` step
of a fresh-keystore APK+AAB build). -/
def envFailSeventh : Nat → Bool := fun n => n != 6

/-- A demo request: `index.html`, appName "Demo App", version "1.0",
no icon. -/
def bDemo : Builder := mkBuilder "/in/index.html" "Demo App" "1.0" none 1700000000

/-- Initial world for the demo request: only the input HTML file exists. -/
def stDemo : St :=
  { files := [("/in/index.html", "<html></html>")], dirs := [], trace := [], log := [] }

/-- Initial world with the input HTML file holding arbitrary content. -/
def stHtml (hc : String) : St :=
  { files := [("/in/index.html", hc)], dirs := [], trace := [], log := [] }

/-- Initial world that also holds a stale bundle artifact from an earlier
build of the same appName. -/
def stHtmlStale (hc old : String) : St :=
  { files := [("Demo_App.aab", old), ("/in/index.html", hc)], dirs := [], trace := [],
    log := [] }

/-- The demo request with a supplied icon path that does not exist. -/
def bDemoIconMissing : Builder :=
  mkBuilder "/in/index.html" "Demo App" "1.0" (some "/art/icon.png") 1700000000

/-- The demo request with a supplied icon whose extension is upper-case. -/
def bDemoIconUpper : Builder :=
  mkBuilder "/in/index.html" "Demo App" "1.0" (some "/art/icon.PNG") 1700000000

/-- Initial world in which the upper-case-extension icon file exists. -/
def stIconUpper : St :=
  { files := [("/in/index.html", "<html></html>"), ("/art/icon.PNG", "ICONBYTES")],
    dirs := [], trace := [], log := [] }

/-! ### Helper lemmas -/

theorem bindE_ok {α β : Type} {x : Except (Err × St) α} {f : α → Except (Err × St) β}
    {v : β} (h : (x >>= f) = .ok v) : ∃ a, x = .ok a ∧ f a = .ok v := by
  cases x with
  | ok a => exact ⟨a, rfl, h⟩
  | error e => exact absurd h (by simp [bind, Except.bind])

theorem bindE_error {α β : Type} {x : Except (Err × St) α} {f : α → Except (Err × St) β}
    {e : Err × St} (h : (x >>= f) = .error e) :
    x = .error e ∨ ∃ a, x = .ok a ∧ f a = .error e := by
  cases x with
  | ok a => exact .inr ⟨a, rfl, h⟩
  | error e' => exact .inl (by simpa [bind, Except.bind] using h)

theorem mem_dirs_bind {α β : Type} (gA : α → St) {gB : β → St}
    {x : Except (Err × St) α} {f : α → Except (Err × St) β} {d : String}
    (hx : d ∈ (embSt gA x).dirs)
    (hf : ∀ a, x = .ok a → d ∈ (gA a).dirs → d ∈ (embSt gB (f a)).dirs) :
    d ∈ (embSt gB (x >>= f)).dirs := by
  cases x with
  | error e => exact hx
  | ok a => exact hf a rfl hx

theorem embSt_readF (p : String) (st : St) : embSt Prod.fst (readF p st) = st := by
  unfold readF
  cases readFile st p <;> rfl

theorem embSt_invoke_dirs (env : Nat → Bool) (i : Inv) (st : St) :
    (embSt id (invoke env i st)).dirs = st.dirs := by
  unfold invoke
  split <;> rfl

theorem prepare_directories_fresh (b : Builder) (st : St)
    (h : pathExists st b.buildDir = false) :
    prepare_directories b st =
      { st with
        dirs := b.assetsDir :: pjoin b.resDir "values" :: pjoin b.resDir "layout" :: b.srcDir :: b.buildDir :: st.dirs } := by
  unfold prepare_directories
  rw [if_neg]
  · rfl
  · simp [h]

theorem toNat_ofNat_valid {n : Nat} (h : n.isValidChar) :
    (Char.ofNat n).toNat = n := by
  simp only [Char.ofNat, h, dif_pos, Char.ofNatAux, Char.toNat, UInt32.toNat,
    BitVec.toNat_ofNatLt]

theorem toLower_idem (c : Char) : c.toLower.toLower = c.toLower := by
  show Char.toLower (Char.toLower c) = Char.toLower c
  simp only [Char.toLower]
  by_cases h : c.toNat ≥ 65 ∧ c.toNat ≤ 90
  · rw [if_pos h, if_neg]
    rw [toNat_ofNat_valid (Or.inl (by omega : c.toNat + 32 < 55296))]
    omega
  · rw [if_neg h, if_neg h]

theorem lower_strip_idem (l : List Char) :
    ((((l.map Char.toLower).filter (fun c => c != ' ')).map Char.toLower).filter
        (fun c => c != ' ')) =
      (l.map Char.toLower).filter (fun c => c != ' ') := by
  induction l with
  | nil => rfl
  | cons c l ih =>
    simp only [List.map_cons, List.filter_cons]
    by_cases h : (Char.toLower c != ' ') = true
    · simp only [h, if_true, List.map_cons, List.filter_cons, toLower_idem, h,
        if_true, ih]
    · simp only [h, Bool.false_eq_true, if_false, ih]

theorem derive_derive (s : String) : derive (derive s) = derive s := by
  show stripSpaces (pyLower (stripSpaces (pyLower s))) = stripSpaces (pyLower s)
  simp only [pyLower, stripSpaces]
  exact congrArg String.mk (lower_strip_idem s.data)

/-! ### C1 -/

/-- C1: for every appName, the derived packageName is the fixed
reverse-domain prefix "com.example." followed by the appName lowercased
with all space characters removed, and the lowercase-and-strip-spaces
derivation is idempotent: applying it again to the derived suffix changes
nothing. -/
theorem c1_packageName_prefix_and_idempotent (b : Builder) :
    b.packageName = "com.example." ++ derive b.appName ∧
      derive (derive b.appName) = derive b.appName :=
  ⟨rfl, derive_derive b.appName⟩

/-! ### C9 -/

/-- C9: `generate_manifest` interpolates the user-supplied appName and
version into the manifest markup with no escaping: for the appName
`My <App> & "quoted"` (which contains the reserved markup characters `<`,
`>`, `&` and `"`) and the version `1.0"<`, the generated descriptor text
contains both verbatim, as contiguous substrings. -/
theorem c9_manifest_embeds_unescaped :
    (∃ pre mid post,
        manifestContent (Builder.packageName ⟨"/h", "My <App> & \"quoted\"", "1.0\"<", none, "bd"⟩)
            "1.0\"<" "My <App> & \"quoted\"" defaultIcon =
          pre ++ "1.0\"<" ++ mid ++ "My <App> & \"quoted\"" ++ post) ∧
      "My <App> & \"quoted\"".data.contains '<' = true ∧
      "My <App> & \"quoted\"".data.contains '&' = true ∧
      "My <App> & \"quoted\"".data.contains '\"' = true ∧
      "1.0\"<".data.contains '\"' = true :=
  ⟨⟨_, _, _, rfl⟩, by decide, by decide, by decide, by decide⟩

/-! ### Workspace-directory invariants across stages -/

theorem copy_assets_dirs (b : Builder) (st : St) (d : String) (h : d ∈ st.dirs) :
    d ∈ (embSt Prod.fst (copy_assets b st)).dirs := by
  unfold copy_assets
  cases readFile st b.htmlPath with
  | none => exact h
  | some hc =>
    dsimp only
    cases b.iconPath with
    | none => exact h
    | some ip =>
      dsimp only
      cases readFile (writeFile (pjoin b.assetsDir "index.html") hc st) ip with
      | none => exact h
      | some ic => exact List.mem_cons_of_mem _ h

theorem ensure_keystore_dirs (env : Nat → Bool) (st : St) (d : String)
    (h : d ∈ st.dirs) : d ∈ (embSt id (ensure_keystore env st)).dirs := by
  unfold ensure_keystore
  split
  · exact h
  · dsimp only
    refine mem_dirs_bind id (by rw [embSt_invoke_dirs]; exact h) ?_
    rintro st1 - h1
    exact h1

theorem compile_common_dirs (b : Builder) (env : Nat → Bool) (st : St) (d : String)
    (h : d ∈ st.dirs) : d ∈ (embSt Prod.fst (compile_common b env st)).dirs := by
  unfold compile_common
  dsimp only
  refine mem_dirs_bind id (by rw [embSt_invoke_dirs]; exact h) ?_
  rintro st1 - h1
  dsimp only
  refine mem_dirs_bind Prod.fst (by rw [embSt_readF]; exact h1) ?_
  rintro ⟨st2, man⟩ - h2
  dsimp only
  refine mem_dirs_bind Prod.fst (by rw [embSt_readF]; exact h2) ?_
  rintro ⟨st3, archC⟩ - h3
  dsimp only
  refine mem_dirs_bind id (by rw [embSt_invoke_dirs]; exact h3) ?_
  rintro st4 - h4
  dsimp only
  refine mem_dirs_bind Prod.fst (by rw [embSt_readF]; exact h4) ?_
  rintro ⟨st5, mainSrc⟩ - h5
  dsimp only
  refine mem_dirs_bind Prod.fst (by rw [embSt_readF]; exact h5) ?_
  rintro ⟨st6, rSrc⟩ - h6
  dsimp only
  refine mem_dirs_bind id (by rw [embSt_invoke_dirs]; exact h6) ?_
  rintro st7 - h7
  dsimp only
  refine mem_dirs_bind id (by rw [embSt_invoke_dirs]; exact h7) ?_
  rintro st8 - h8
  dsimp only
  refine mem_dirs_bind Prod.fst (by rw [embSt_readF]; exact h8) ?_
  rintro ⟨st9, mc⟩ - h9
  dsimp only
  refine mem_dirs_bind Prod.fst (by rw [embSt_readF]; exact h9) ?_
  rintro ⟨st10, rc⟩ - h10
  exact h10

theorem build_apk_dirs (b : Builder) (env : Nat → Bool) (crz : String) (st : St)
    (d : String) (h : d ∈ st.dirs) :
    d ∈ (embSt id (build_apk b env crz st)).dirs := by
  unfold build_apk
  dsimp only
  refine mem_dirs_bind Prod.fst (by rw [embSt_readF]; exact h) ?_
  rintro ⟨st1, man⟩ - h1
  dsimp only
  refine mem_dirs_bind Prod.fst (by rw [embSt_readF]; exact h1) ?_
  rintro ⟨st2, archC⟩ - h2
  dsimp only
  refine mem_dirs_bind id (by rw [embSt_invoke_dirs]; exact h2) ?_
  rintro st3 - h3
  dsimp only
  refine mem_dirs_bind Prod.fst (by rw [embSt_readF]; exact h3) ?_
  rintro ⟨st4, dex⟩ - h4
  dsimp only
  refine mem_dirs_bind Prod.fst (by rw [embSt_readF]; exact h4) ?_
  rintro ⟨st5, cur⟩ - h5
  dsimp only
  refine mem_dirs_bind Prod.fst (by rw [embSt_readF]; exact h5) ?_
  rintro ⟨st6, inC⟩ - h6
  dsimp only
  refine mem_dirs_bind id (by rw [embSt_invoke_dirs]; exact h6) ?_
  rintro st7 - h7
  exact h7

theorem build_aab_dirs (b : Builder) (env : Nat → Bool) (crz : String) (st : St)
    (d : String) (h : d ∈ st.dirs) :
    d ∈ (embSt id (build_aab b env crz st)).dirs := by
  unfold build_aab
  dsimp only
  refine mem_dirs_bind Prod.fst (by rw [embSt_readF]; exact h) ?_
  rintro ⟨st1, man⟩ - h1
  dsimp only
  refine mem_dirs_bind Prod.fst (by rw [embSt_readF]; exact h1) ?_
  rintro ⟨st2, archC⟩ - h2
  dsimp only
  refine mem_dirs_bind id (by rw [embSt_invoke_dirs]; exact h2) ?_
  rintro st3 - h3
  dsimp only
  refine mem_dirs_bind Prod.fst ?_ ?_
  · rw [embSt_readF]
    exact List.mem_cons_of_mem _ (List.mem_cons_of_mem _ h3)
  rintro ⟨st4, protoC⟩ - h4
  dsimp only
  refine mem_dirs_bind Prod.fst (by rw [embSt_readF]; exact h4) ?_
  rintro ⟨st5, mc⟩ - h5
  dsimp only
  refine mem_dirs_bind Prod.fst (by rw [embSt_readF]; exact h5) ?_
  rintro ⟨st6, dex⟩ - h6
  dsimp only
  refine mem_dirs_bind Prod.fst ?_ ?_
  · rw [embSt_readF]
    split
    · exact h6
    · exact h6
  rintro ⟨st7, mz⟩ - h7
  dsimp only
  refine mem_dirs_bind id (by rw [embSt_invoke_dirs]; exact h7) ?_
  rintro st8 - h8
  dsimp only
  refine mem_dirs_bind Prod.fst (by rw [embSt_readF]; exact h8) ?_
  rintro ⟨st9, bc⟩ - h9
  dsimp only
  refine mem_dirs_bind id (by rw [embSt_invoke_dirs]; exact h9) ?_
  rintro st10 - h10
  exact h10

theorem runPrelude_dirs (b : Builder) (env : Nat → Bool) (st0 : St) :
    b.buildDir ∈ (embSt Prod.fst (runPrelude b env st0)).dirs := by
  unfold runPrelude
  dsimp only
  have hprep : b.buildDir ∈ (prepare_directories b
      (pushLog ("\n[*] Starting build: " ++ b.appName ++ " v" ++ b.version) st0)).dirs := by
    unfold prepare_directories
    dsimp only [mkdirs]
    exact List.mem_cons_of_mem _ (List.mem_cons_of_mem _ (List.mem_cons_of_mem _
      (List.mem_cons_of_mem _ (List.mem_cons_self _ _))))
  refine mem_dirs_bind Prod.fst (copy_assets_dirs _ _ _ hprep) ?_
  rintro ⟨st1, iconRes⟩ - h1
  dsimp only
  refine mem_dirs_bind id (ensure_keystore_dirs _ _ _ h1) ?_
  rintro st2 - h2
  exact compile_common_dirs _ _ _ _ h2

theorem runE_ok_no_workspace (b : Builder) (env : Nat → Bool) (d1 d2 : Bool)
    (st0 st' : St) (h : runE b env d1 d2 st0 = .ok st') :
    b.buildDir ∉ st'.dirs ∧ ∀ q ∈ st'.files, underDir b.buildDir q.1 = false := by
  unfold runE at h
  obtain ⟨⟨st1, crz⟩, -, h⟩ := bindE_ok h
  dsimp only at h
  have tail : ∀ st3 : St, (pure (rmtreeSt b.buildDir st3) : Except (Err × St) St) = Except.ok st' →
      b.buildDir ∉ st'.dirs ∧ ∀ q ∈ st'.files, underDir b.buildDir q.1 = false := by
    intro st3 h3
    have hst : st' = rmtreeSt b.buildDir st3 := by cases h3; rfl
    subst hst
    constructor
    · intro hmem
      have := (List.mem_filter.mp hmem).2
      simp at this
    · intro q hq
      have := (List.mem_filter.mp hq).2
      simpa using this
  have tail2 : ∀ st2 : St,
      ((if d2 = true then build_aab b env crz st2 >>= fun y => pure (rmtreeSt b.buildDir y)
        else pure st2 >>= fun y => pure (rmtreeSt b.buildDir y)) = Except.ok st') →
      b.buildDir ∉ st'.dirs ∧ ∀ q ∈ st'.files, underDir b.buildDir q.1 = false := by
    intro st2 h2
    cases d2 with
    | true =>
      rw [if_pos rfl] at h2
      obtain ⟨st3, -, h3⟩ := bindE_ok h2
      exact tail st3 h3
    | false =>
      rw [if_neg Bool.false_ne_true] at h2
      obtain ⟨st3, -, h3⟩ := bindE_ok h2
      exact tail st3 h3
  cases d1 with
  | true =>
    rw [if_pos rfl] at h
    obtain ⟨st2, -, h2⟩ := bindE_ok h
    exact tail2 st2 h2
  | false =>
    rw [if_neg Bool.false_ne_true] at h
    obtain ⟨st2, -, h2⟩ := bindE_ok h
    exact tail2 st2 h2

theorem runE_error_dirs (b : Builder) (env : Nat → Bool) (d1 d2 : Bool)
    (st0 : St) (e : Err × St) (h : runE b env d1 d2 st0 = .error e) :
    b.buildDir ∈ e.2.dirs := by
  unfold runE at h
  rcases bindE_error h with hpre | ⟨⟨st1, crz⟩, hok, h⟩
  · have hm := runPrelude_dirs b env st0
    rw [hpre] at hm
    exact hm
  · have h1 : b.buildDir ∈ st1.dirs := by
      have hm := runPrelude_dirs b env st0
      rw [hok] at hm
      exact hm
    dsimp only at h
    have tail2 : ∀ st2 : St, b.buildDir ∈ st2.dirs →
        ((if d2 = true then build_aab b env crz st2 >>= fun y => pure (rmtreeSt b.buildDir y)
          else pure st2 >>= fun y => pure (rmtreeSt b.buildDir y)) = Except.error e) →
        b.buildDir ∈ e.2.dirs := by
      intro st2 hm2 h2
      cases d2 with
      | true =>
        rw [if_pos rfl] at h2
        rcases bindE_error h2 with haab | ⟨st3, hok3, h3⟩
        · have hm := build_aab_dirs b env crz st2 b.buildDir hm2
          rw [haab] at hm
          exact hm
        · exact absurd h3 (by simp [pure, Except.pure])
      | false =>
        rw [if_neg Bool.false_ne_true] at h2
        rcases bindE_error h2 with hp | ⟨st3, hok3, h3⟩
        · exact absurd hp (by simp [pure, Except.pure])
        · exact absurd h3 (by simp [pure, Except.pure])
    cases d1 with
    | true =>
      rw [if_pos rfl] at h
      rcases bindE_error h with hapk | ⟨st2, hok2, h2⟩
      · have hm := build_apk_dirs b env crz st1 b.buildDir h1
        rw [hapk] at hm
        exact hm
      · have hm2 : b.buildDir ∈ st2.dirs := by
          have hm := build_apk_dirs b env crz st1 b.buildDir h1
          rw [hok2] at hm
          exact hm
        exact tail2 st2 hm2 h2
    | false =>
      rw [if_neg Bool.false_ne_true] at h
      rcases bindE_error h with hp | ⟨st2, hok2, h2⟩
      · exact absurd hp (by simp [pure, Except.pure])
      · have hst : st2 = st1 := by
          have h' : (Except.ok st1 : Except (Err × St) St) = Except.ok st2 := hok2
          cases h'
          rfl
        subst hst
        exact tail2 st2 h1 h2

/-! ### C2 -/

/-- C2: when the htmlPath does not refer to an existing file (and the
workspace location is fresh), the build aborts in `copy_assets`: the `try`
body ends in an exception, no external toolchain capability is ever
invoked (the invocation trace is unchanged), and no file whatsoever — in
particular no final artifact — is created (the file store is unchanged). -/
theorem c2_missing_html_aborts_early (b : Builder) (env : Nat → Bool)
    (doApk doAab : Bool) (st0 : St)
    (hhtml : readFile st0 b.htmlPath = none)
    (hbd : pathExists st0 b.buildDir = false) :
    (run b env doApk doAab st0).files = st0.files ∧
    (run b env doApk doAab st0).trace = st0.trace ∧
    isOkE (runE b env doApk doAab st0) = false := by
  have hbd2 : pathExists (pushLog ("\n[*] Starting build: " ++ b.appName ++ " v" ++ b.version) st0) b.buildDir = false := hbd
  unfold run runE runPrelude
  dsimp only
  rw [prepare_directories_fresh b _ hbd2]
  simp only [readFile] at hhtml
  simp [copy_assets, readFile, hhtml, pushLog, errMsg, isOkE, bind, Except.bind]

/-- Witness for C2: a concrete request whose HTML input is absent. -/
theorem c2_missing_html_aborts_early_witness :
    readFile { files := [], dirs := [], trace := [], log := [] } bDemo.htmlPath = none ∧
    (run bDemo envAll true true { files := [], dirs := [], trace := [], log := [] }).files = [] ∧
    isOkE (runE bDemo envAll true true { files := [], dirs := [], trace := [], log := [] }) = false := by
  refine ⟨by decide, ?_, ?_⟩
  · exact (c2_missing_html_aborts_early bDemo envAll true true _ (by decide) (by decide)).1
  · exact (c2_missing_html_aborts_early bDemo envAll true true _ (by decide) (by decide)).2.2

/-! ### C3 (corrected) -/

/-- Counterexample for C3 as stated: a concrete build in which the
`aapt2 compile` invocation fails; the build ends in failure, yet the
ephemeral workspace directory still exists afterwards — cleanup is not
attempted on failure (`shutil.rmtree` is inside the `try` body, before the
handlers, with no `finally`). -/
theorem c3_cleanup_on_failure_counterexample :
    isOkE (runE bDemo envFailSnd true true stDemo) = false ∧
    bDemo.buildDir ∈ (run bDemo envFailSnd true true stDemo).dirs := by
  constructor
  · decide
  · decide

/-- C3 amended: the ephemeral workspace directory is destroyed at build
end when the build succeeds (no directory and no file under it survives),
but when any stage fails cleanup is skipped and the workspace directory
remains. -/
theorem c3_workspace_destroyed_only_on_success (b : Builder) (env : Nat → Bool)
    (d1 d2 : Bool) (st0 : St) :
    (isOkE (runE b env d1 d2 st0) = true →
      b.buildDir ∉ (run b env d1 d2 st0).dirs ∧
      ∀ q ∈ (run b env d1 d2 st0).files, underDir b.buildDir q.1 = false) ∧
    (isOkE (runE b env d1 d2 st0) = false →
      b.buildDir ∈ (run b env d1 d2 st0).dirs) := by
  cases hr : runE b env d1 d2 st0 with
  | ok st' =>
    constructor
    · intro _
      have hres := runE_ok_no_workspace b env d1 d2 st0 st' hr
      simp only [run, hr]
      exact hres
    · intro hf
      rw [isOkE] at hf
      exact absurd hf (by simp)
  | error pr =>
    constructor
    · intro ht
      rw [isOkE] at ht
      exact absurd ht (by simp)
    · intro _
      have hres := runE_error_dirs b env d1 d2 st0 pr hr
      simp only [run, hr]
      exact hres

/-- Witness for the amended C3: on a concrete successful build the
workspace is gone, and on a concrete failing build it remains. -/
theorem c3_workspace_destroyed_only_on_success_witness :
    bDemo.buildDir ∉ (run bDemo envAll true true stDemo).dirs ∧
    bDemo.buildDir ∈ (run bDemo envFailSnd true true stDemo).dirs := by
  constructor
  · exact ((c3_workspace_destroyed_only_on_success bDemo envAll true true stDemo).1 (by decide)).1
  · exact (c3_workspace_destroyed_only_on_success bDemo envFailSnd true true stDemo).2 (by decide)

/-! ### C4 (corrected) -/

/-- Counterexample for C4 as stated: a concrete APK+AAB build whose
`apksigner` (package-branch sign) invocation fails.  The build ends in
failure and the trace contains the attempted `apksigner` invocation but no
Bundle Assembler invocation at all: the bundle branch does not run
afterwards, because the exception propagates to `run`'s handler and skips
the rest of the `try` body. -/
theorem c4_sign_failure_skips_bundle_counterexample :
    isOkE (runE bDemo envFailSeventh true true stDemo) = false ∧
    (run bDemo envFailSeventh true true stDemo).trace.any isBundleInv = false ∧
    (run bDemo envFailSeventh true true stDemo).trace.any
      (fun i => match i with | .apksigner _ _ _ => true | _ => false) = true := by
  refine ⟨by decide, by decide, by decide⟩

/-- C4 amended: when the package branch (or anything before it) fails, the
whole remaining build is aborted; requesting the bundle branch as well
changes nothing — the run with both branches requested is identical, state
and all, to the run with only the package branch requested, so the Bundle
Assembler never executes. -/
theorem c4_package_failure_aborts_whole_build (b : Builder) (env : Nat → Bool)
    (st0 : St) (h : isOkE (runE b env true false st0) = false) :
    runE b env true true st0 = runE b env true false st0 := by
  unfold runE at h ⊢
  cases hp : runPrelude b env st0 with
  | error pr => rfl
  | ok p =>
    obtain ⟨st1, crz⟩ := p
    rw [hp] at h
    cases ha : build_apk b env crz st1 with
    | error e => simp [bind, Except.bind, ha]
    | ok st2 => simp [bind, Except.bind, ha, isOkE, pure, Except.pure] at h

/-- Witness for the amended C4: at the concrete sign-failure build, the
APK-only run fails, and the APK+AAB run is identical to it. -/
theorem c4_package_failure_aborts_whole_build_witness :
    isOkE (runE bDemo envFailSeventh true false stDemo) = false ∧
    runE bDemo envFailSeventh true true stDemo = runE bDemo envFailSeventh true false stDemo := by
  constructor
  · decide
  · exact c4_package_failure_aborts_whole_build bDemo envFailSeventh stDemo (by decide)

/-! ### C10 -/

/-- C10: `build_aab` deletes any pre-existing file at the final bundle
output path (`appName` with spaces replaced by underscores plus `.aab`)
before invoking bundle-build: a build started with a stale bundle artifact
on disk succeeds and produces, state for state, exactly the same result as
a build started without it — the old artifact is silently overwritten, the
build does not fail, and a fresh bundle file exists afterwards. -/
theorem c10_stale_bundle_silently_overwritten (old hc : String) :
    run bDemo envAll true true (stHtmlStale hc old) = run bDemo envAll true true (stHtml hc) ∧
    isOkE (runE bDemo envAll true true (stHtmlStale hc old)) = true ∧
    (readFile (run bDemo envAll true true (stHtml hc)) bDemo.aabPath).isSome = true ∧
    bDemo.aabPath = "Demo_App.aab" := by
  exact ⟨rfl, rfl, rfl, rfl⟩

/-! ### C5 -/

set_option maxHeartbeats 2000000 in
/-- C5: for the demo build with arbitrary HTML content and any combination
of requested branches, the resource-compile stage runs exactly once (the
trace holds exactly one `aapt2 compile` invocation, producing one archive),
and every resource-link invocation of the build — the R.java link of the
common stage, the package branch's binary link, and the bundle branch's
proto link — is fed exactly that archive content, byte for byte. -/
theorem c5_compile_once_shared_archive (hc : String) (d1 d2 : Bool) :
    ∃ arch,
      (run bDemo envAll d1 d2 (stHtml hc)).trace.filterMap compileOut = [arch] ∧
      ∀ s ∈ (run bDemo envAll d1 d2 (stHtml hc)).trace.filterMap linkArchive, s = arch := by
  cases d1 <;> cases d2 <;>
    exact ⟨_, rfl, by intro s hs; fin_cases hs <;> rfl⟩

/-- Witness for C5 at a fully concrete build. -/
theorem c5_compile_once_shared_archive_witness :
    ((run bDemo envAll true true (stHtml "<html></html>")).trace.filterMap compileOut).length = 1 := by
  obtain ⟨arch, h1, -⟩ := c5_compile_once_shared_archive "<html></html>" true true
  rw [h1]
  rfl

/-! ### C6 (corrected) -/

set_option maxHeartbeats 2000000 in
/-- Counterexample for C6 as stated: a concrete build with a supplied but
missing iconPath succeeds, and its result — console log included — is
identical, state for state, to the build with no iconPath at all.  The log
is exactly the ten ordinary progress messages: no warning of any kind is
emitted (`copy_assets` falls back to the default sentinel silently). -/
theorem c6_missing_icon_no_warning_counterexample :
    isOkE (runE bDemoIconMissing envAll true true stDemo) = true ∧
    run bDemoIconMissing envAll true true stDemo = run bDemo envAll true true stDemo ∧
    (run bDemoIconMissing envAll true true stDemo).log =
      ["\n[*] Starting build: Demo App v1.0", "--> Generating debug keystore...",
       "--> Compiling resources (aapt2)...", "--> Generating R.java...",
       "--> Compiling Java (javac)...", "--> Converting to Dex (d8)...",
       "\n[ Building APK ]", "[SUCCESS] APK Created: Demo_App.apk",
       "\n[ Building Android App Bundle (AAB) ]",
       "[SUCCESS] AAB Created: Demo_App.aab"] := by
  refine ⟨by decide, by rfl, by decide⟩

set_option maxHeartbeats 2000000 in
/-- C6 amended: when no iconPath is supplied the descriptor's
icon-reference equals the fixed platform-default sentinel exactly (for
every builder and state), and a supplied-but-missing iconPath yields a
build result identical to not supplying one — with no warning emitted, as
the identical console output shows (demo build family, arbitrary HTML
content, every branch selection). -/
theorem c6_missing_icon_silent_fallback (hc : String) (d1 d2 : Bool) :
    run bDemoIconMissing envAll d1 d2 (stHtml hc) = run bDemo envAll d1 d2 (stHtml hc) ∧
    (∀ (b : Builder) (st st' : St) (r : String), b.iconPath = none →
      copy_assets b st = .ok (st', r) → r = defaultIcon) := by
  constructor
  · cases d1 <;> cases d2 <;> rfl
  · intro b st st' r hb h
    unfold copy_assets at h
    rw [hb] at h
    cases hh : readFile st b.htmlPath with
    | none => rw [hh] at h; cases h
    | some hcv => rw [hh] at h; dsimp only at h; cases h; rfl

/-- Witness for the amended C6. -/
theorem c6_missing_icon_silent_fallback_witness :
    run bDemoIconMissing envAll true false (stHtml "<p>hi</p>") =
      run bDemo envAll true false (stHtml "<p>hi</p>") ∧
    "@android:drawable/sym_def_app_icon" = defaultIcon := by
  constructor
  · exact (c6_missing_icon_silent_fallback "<p>hi</p>" true false).1
  · exact ((c6_missing_icon_silent_fallback "<p>hi</p>" true false).2 bDemo stDemo
      (writeFile (pjoin bDemo.assetsDir "index.html") "<html></html>" stDemo)
      "@android:drawable/sym_def_app_icon" rfl rfl).symm

/-! ### C7 (corrected) -/

/-- Counterexample for C7 as stated: for the icon `/art/icon.PNG` the
original extension is NOT preserved — `copy_assets` lowercases it, so the
density bucket holds `ic_launcher.png` and no file named
`ic_launcher.PNG` exists, although `os.path.splitext` yields `.PNG`. -/
theorem c7_extension_not_preserved_counterexample :
    readFile (embSt Prod.fst (copy_assets bDemoIconUpper stIconUpper))
      "build_temp_1700000000/res/mipmap-hdpi/ic_launcher.PNG" = none ∧
    readFile (embSt Prod.fst (copy_assets bDemoIconUpper stIconUpper))
      "build_temp_1700000000/res/mipmap-hdpi/ic_launcher.png" = some "ICONBYTES" ∧
    splitextExt "/art/icon.PNG" = ".PNG" ∧
    isOkE (copy_assets bDemoIconUpper stIconUpper) = true := by
  refine ⟨by decide, by decide, by decide, by decide⟩

/-- C7 amended: when iconPath is supplied and the file exists, the icon
file's content is copied into the density-specific bucket
`res/mipmap-hdpi` under the fixed stem `ic_launcher` with the original
extension LOWERCASED (preserved only up to case), and the descriptor's
icon-reference is `@mipmap/ic_launcher`, pointing at that bucket entry. -/
theorem c7_icon_copied_with_lowercased_extension (b : Builder) (p : String)
    (st : St) (hcv icv : String)
    (hb : b.iconPath = some p)
    (hhtml : readFile st b.htmlPath = some hcv)
    (hicon : readFile st p = some icv)
    (hne : p ≠ pjoin b.assetsDir "index.html") :
    copy_assets b st = .ok
      (writeFile (pjoin (pjoin b.resDir "mipmap-hdpi")
          ("ic_launcher" ++ pyLower (splitextExt p))) icv
        (mkdirs (pjoin b.resDir "mipmap-hdpi")
          (writeFile (pjoin b.assetsDir "index.html") hcv st)),
      "@mipmap/ic_launcher") := by
  simp only [copy_assets, Builder.assetsDir, Builder.resDir]
  rw [hhtml]
  dsimp only
  rw [hb]
  dsimp only
  have hb2 : (p == pjoin (pjoin b.buildDir "assets") "index.html") = false :=
    beq_eq_false_iff_ne.mpr hne
  have hlook : readFile (writeFile (pjoin (pjoin b.buildDir "assets") "index.html") hcv st) p
      = some icv := by
    simp [readFile, writeFile, List.lookup, hb2]
    simpa [readFile] using hicon
  rw [hlook]

/-- Witness for the amended C7 at the upper-case-extension fixture. -/
theorem c7_icon_copied_with_lowercased_extension_witness :
    copy_assets bDemoIconUpper stIconUpper = .ok
      (writeFile (pjoin (pjoin bDemoIconUpper.resDir "mipmap-hdpi")
          ("ic_launcher" ++ pyLower (splitextExt "/art/icon.PNG"))) "ICONBYTES"
        (mkdirs (pjoin bDemoIconUpper.resDir "mipmap-hdpi")
          (writeFile (pjoin bDemoIconUpper.assetsDir "index.html") "<html></html>" stIconUpper)),
      "@mipmap/ic_launcher") := by
  exact c7_icon_copied_with_lowercased_extension bDemoIconUpper "/art/icon.PNG" stIconUpper
    "<html></html>" "ICONBYTES" rfl (by decide) (by decide) (by decide)

/-! ### C8 -/

/-- C8: the process exit code is zero whenever the mandatory environment
capabilities (Java, the SDK) are available or installable — regardless of
how the build itself goes, since `AppBuilder.run` catches every per-build
failure — and is 1 exactly when a mandatory capability is entirely
unavailable; and every per-build failure is caught at the orchestrator
boundary and reported to the console (the run's final state is the failing
state plus the handler's `[ERROR]` message). -/
theorem c8_build_failures_exit_zero (c : Caps) (b : Builder) (env : Nat → Bool)
    (d1 d2 : Bool) (st0 : St) :
    (mainModel c b env d1 d2 st0).1 = (if envAvailable c = true then 0 else 1) ∧
    (envAvailable c = true → (mainModel c b env d1 d2 st0).2 = run b env d1 d2 st0) ∧
    (∀ e stE, runE b env d1 d2 st0 = .error (e, stE) →
      run b env d1 d2 st0 = pushLog (errMsg e) stE) := by
  obtain ⟨j, ji, s, si, bt, btd⟩ := c
  refine ⟨?_, ?_, ?_⟩
  · cases j <;> cases ji <;> cases s <;> cases si <;>
      simp [mainModel, check_and_install, envAvailable, ensure_java, sdkAvailable]
  · intro hc
    cases j <;> cases ji <;> cases s <;> cases si <;>
      simp_all [mainModel, check_and_install, envAvailable, ensure_java, sdkAvailable]
  · intro e stE h
    simp [run, h]

/-- Witness for C8: with the environment available, a build whose compile
stage fails still exits 0; with Java unavailable and not installable, the
process exits 1 before any build. -/
theorem c8_build_failures_exit_zero_witness :
    (mainModel ⟨true, true, true, true, true, true⟩ bDemo envFailSnd true false stDemo).1 = 0 ∧
    (mainModel ⟨false, false, true, true, true, true⟩ bDemo envAll true false stDemo).1 = 1 := by
  constructor
  · have h := (c8_build_failures_exit_zero ⟨true, true, true, true, true, true⟩
      bDemo envFailSnd true false stDemo).1
    simpa using h
  · have h := (c8_build_failures_exit_zero ⟨false, false, true, true, true, true⟩
      bDemo envAll true false stDemo).1
    simpa using h

end Web2droid
